import Mathlib

/-!
Verification development for the docconvert docstring conversion library.

This file gives a shallow embedding, in Lean 4, of the parts of the
library that the specification's claims are about:

* the style-agnostic docstring intermediate representation
  (`src/docconvert/parser/docstring.py`),
* the line cursor and the base/reST/epytext parsers
  (`src/docconvert/parser/base.py`, `rest.py`, `epytext.py`),
* the base/reST/epytext writers (`src/docconvert/writer/base.py`,
  `rest.py`, `epytext.py`),
* the input-style guessing logic (`src/docconvert/parser/__init__.py`),
* the module declaration locator (`src/docconvert/parser/module.py`),
* the default configuration (`src/docconvert/configuration.py`).

Python strings are embedded as Lean `String`, Python lists as Lean
`List`, ordered dictionaries as association lists preserving insertion
order, and raising code as `Except`-returning functions.  Regular
expressions from the source are hand-translated into deterministic
scanners over `List Char`; each scanner documents the pattern it
implements.  Loops whose termination is by progress through a finite
line or token list are written with an explicit fuel argument that is
always called with enough fuel to cover the list.
-/

/-- Python `str.isspace` character class (ASCII subset used by the library:
space, tab, newline, carriage return, vertical tab, form feed). -/
def charIsSpace (c : Char) : Bool :=
  c = ' ' || c = '\t' || c = '\n' || c = '\x0d' || c = '\x0b' || c = '\x0c'

/-- Python `str.isspace()`: true iff the string is nonempty and every
character is whitespace. -/
def pyIsSpace (s : String) : Bool :=
  !s.data.isEmpty && s.data.all charIsSpace

/-- Python `str.rstrip()` with no argument: drop trailing whitespace. -/
def pyRstrip (s : String) : String :=
  ⟨(s.data.reverse.dropWhile charIsSpace).reverse⟩

/-- Python `str.lstrip()` with no argument: drop leading whitespace. -/
def pyLstrip (s : String) : String :=
  ⟨s.data.dropWhile charIsSpace⟩

/-- Python `str.strip()` with no argument. -/
def pyStrip (s : String) : String :=
  pyLstrip (pyRstrip s)

/-- Python `str.lstrip("*")`: drop leading `*` characters
(used by `Docstring.add_arg`/`add_arg_type` and the optional check). -/
def pyLstripStars (s : String) : String :=
  ⟨s.data.dropWhile (· = '*')⟩

/-- Python ASCII `str.lower()`. -/
def pyLower (s : String) : String :=
  ⟨s.data.map Char.toLower⟩

/-- Python `s[start:]` for a nonnegative start (slicing clamps, never
raises). -/
def strSliceFrom (s : String) (start : Nat) : String :=
  ⟨s.data.drop start⟩

/-- Python `s[:stop]` for a nonnegative stop. -/
def strSliceTo (s : String) (stop : Nat) : String :=
  ⟨s.data.take stop⟩

/-- Python `n * s` string repetition. -/
def strRepeat (s : String) (n : Nat) : String :=
  String.join (List.replicate n s)

/-- Python `pattern in line` / `re.search(pattern, line).start()` for a
plain substring pattern: index of the first occurrence, if any. -/
def substrIndex (s pat : String) : Option Nat :=
  let rec go : List Char → Nat → Option Nat
    | [], i => if pat.data.isEmpty && i = 0 then some 0 else
        if pat.data.isEmpty then some i else none
    | c :: rest, i =>
        if pat.data.isPrefixOf (c :: rest) then some i else go rest (i + 1)
  if pat.data.isEmpty then some 0 else go s.data 0

/-- `line_utils.get_indent`: index of the first non-whitespace character,
or the length of the line if it is all whitespace. -/
def getIndent (line : String) : Nat :=
  (line.data.takeWhile charIsSpace).length

/-- Loop body of `line_utils.is_indented`, carrying the running index. -/
def isIndentedAux (indent : Nat) (exact : Bool) : List Char → Nat → Bool
  | [], _ => false
  | c :: rest, idx =>
      if idx ≥ indent then
        if exact then !charIsSpace c else true
      else if !charIsSpace c then false
      else isIndentedAux indent exact rest (idx + 1)

/-- `line_utils.is_indented(line, indent, exact)`. -/
def isIndented (line : String) (indent : Nat) (exact : Bool) : Bool :=
  isIndentedAux indent exact line.data 0

/-- `line_utils.dedent(line, indent)`: `line[indent:]`. -/
def dedent (line : String) (indent : Nat) : String :=
  strSliceFrom line indent

/-- `line_utils.dedent_by_minimum`.  The Python `min(...)` is over the
generator of indents of non-falsy lines; call sites never pass a
nonempty list whose members are all empty (which would raise
`ValueError` in Python), so the `getD 0` default is unreachable there. -/
def dedentByMinimum (lines : List String) : List String :=
  let dedentLen :=
    if lines.isEmpty then 0
    else (((lines.filter (· ≠ "")).map getIndent).min?).getD 0
  lines.map (dedent · dedentLen)

/-- Python `" ".join(xs)` and friends. -/
def pyJoin (sep : String) (xs : List String) : String :=
  String.intercalate sep xs

/-- Python `s.split(sep, 1)` for a single-character separator: the part
before the first occurrence, and the remainder if the separator occurs. -/
def pySplitOnce (s : String) (sep : Char) : String × Option String :=
  let rec go : List Char → List Char → String × Option String
    | [], acc => (⟨acc.reverse⟩, none)
    | c :: rest, acc =>
        if c = sep then (⟨acc.reverse⟩, some ⟨rest⟩) else go rest (c :: acc)
  go s.data []

/-! ## Docstring intermediate representation (`parser/docstring.py`) -/

/-- One element of `Docstring.elements`.  The Python elements are 1- or
2-tuples `(TYPE,)` / `(TYPE, DATA)` with `DATA` a `str` or a `list(str)`;
the tagged variants below cover exactly the valid TYPEs. -/
inductive Element where
  | startQuote (q : String)
  | endQuote (q : String)
  | raw (line : String)
  | rawList (lines : List String)
  | args
  | attributes
  | raisesMarker
  | returnMarker
  | directive (kind : String) (body : List String)
  deriving DecidableEq, Repr

/-- `docstring.DocField`.  The constructor `DocField.__init__` normalises
`kind or ""` and `desc or []`; see `mkField`. -/
structure DocField where
  name : String
  kind : String
  desc : List String
  optional : Bool
  deriving DecidableEq, Repr

/-- `DocField(name, kind, desc, optional)`: `kind or ""` maps both `None`
and `""` to `""`; `desc or []` maps both `None` and `[]` to `[]`. -/
def mkField (name : String) (kind : Option String) (desc : Option (List String))
    (optional : Bool) : DocField :=
  { name := name
    kind := (kind.getD "")
    desc := (desc.getD [])
    optional := optional }

/-- `DocField.update(**kwargs)`: a keyword whose value is `None` is skipped;
any other value overwrites the attribute (no `or` normalisation here). -/
def fieldUpdate (f : DocField) (kind : Option String) (desc : Option (List String))
    (optional : Option Bool) : DocField :=
  { f with
    kind := match kind with | some v => v | none => f.kind
    desc := match desc with | some v => v | none => f.desc
    optional := match optional with | some v => v | none => f.optional }

/-- Ordered dictionary from names to fields: an association list in
insertion order (`collections.OrderedDict`). -/
abbrev FieldDict := List (String × DocField)

/-- `name in od`. -/
def odMem (od : FieldDict) (name : String) : Bool :=
  od.any (fun p => p.1 = name)

/-- In-place update of the value at a key, keeping its position. -/
def odModify (od : FieldDict) (name : String) (g : DocField → DocField) : FieldDict :=
  od.map (fun p => if p.1 = name then (p.1, g p.2) else p)

/-- Lookup by key. -/
def odGet (od : FieldDict) (name : String) : Option DocField :=
  (od.find? (fun p => p.1 = name)).map Prod.snd

/-- `docstring.Docstring`. -/
structure Docstring where
  elements : List Element
  arg_fields : FieldDict
  attribute_fields : FieldDict
  raise_fields : List DocField
  return_field : Option DocField
  deriving DecidableEq, Repr

/-- Fresh `Docstring()`. -/
def emptyDocstring : Docstring :=
  { elements := [], arg_fields := [], attribute_fields := [],
    raise_fields := [], return_field := none }

/-- `Docstring.add_element`. -/
def Docstring.addElement (d : Docstring) (e : Element) : Docstring :=
  { d with elements := d.elements ++ [e] }

/-- `Docstring.add_arg(arg, kind, desc, optional)`. -/
def Docstring.addArg (d : Docstring) (arg : String) (kind : Option String)
    (desc : Option (List String)) (optional : Bool) : Docstring :=
  let name := pyLstripStars arg
  let d := if d.arg_fields.isEmpty then d.addElement .args else d
  if odMem d.arg_fields name then
    let updated := odModify d.arg_fields name (fun f => fieldUpdate f kind desc (some optional))
    { d with arg_fields := updated }
  else
    { d with arg_fields := d.arg_fields ++ [(name, mkField name kind desc optional)] }

/-- `Docstring.add_attribute(var, kind, desc)`. -/
def Docstring.addAttribute (d : Docstring) (var : String) (kind : Option String)
    (desc : Option (List String)) : Docstring :=
  let d := if d.attribute_fields.isEmpty then d.addElement .attributes else d
  if odMem d.attribute_fields var then
    let updated := odModify d.attribute_fields var (fun f => fieldUpdate f kind desc none)
    { d with attribute_fields := updated }
  else
    { d with attribute_fields := d.attribute_fields ++ [(var, mkField var kind desc false)] }

/-- `Docstring.add_return(kind, desc)`. -/
def Docstring.addReturn (d : Docstring) (kind : Option String)
    (desc : Option (List String)) : Docstring :=
  match d.return_field with
  | none =>
      let withMarker := d.elements ++ [Element.returnMarker]
      { d with elements := withMarker, return_field := some (mkField "" kind desc false) }
  | some f =>
      { d with return_field := some (fieldUpdate f kind desc none) }

/-- `Docstring.add_raises(kind, desc)`. -/
def Docstring.addRaises (d : Docstring) (kind : String)
    (desc : Option (List String)) : Docstring :=
  let d := if d.raise_fields.isEmpty then d.addElement .raisesMarker else d
  { d with raise_fields := d.raise_fields ++ [mkField "" (some kind) desc false] }

/-- `Docstring.add_arg_type(name, kind)`. -/
def Docstring.addArgType (d : Docstring) (name kind : String) : Docstring :=
  let name := pyLstripStars name
  if odMem d.arg_fields name then
    let updated := odModify d.arg_fields name (fun f => fieldUpdate f (some kind) none none)
    { d with arg_fields := updated }
  else
    d.addArg name (some kind) none false

/-- `Docstring.add_attribute_type(name, kind)`. -/
def Docstring.addAttributeType (d : Docstring) (name kind : String) : Docstring :=
  if odMem d.attribute_fields name then
    let updated := odModify d.attribute_fields name (fun f => fieldUpdate f (some kind) none none)
    { d with attribute_fields := updated }
  else
    d.addAttribute name (some kind) none

/-- `Docstring.add_return_type(kind)`. -/
def Docstring.addReturnType (d : Docstring) (kind : String) : Docstring :=
  match d.return_field with
  | some f => { d with return_field := some (fieldUpdate f (some kind) none none) }
  | none => d.addReturn (some kind) none

/-! ## Line cursor (`parser/base.py`, class `LineIter`) -/

/-- Python exceptions raised by the embedded code. -/
inductive PyErr where
  | stopIteration
  | indexError
  | valueError (msg : String)
  | indentationError
  | assertionError
  | attributeError (name : String)
  deriving DecidableEq, Repr

/-- Python `l[i]` for an `int` index: negative indices count from the
end; out-of-range indices raise `IndexError`. -/
def pyListGetInt (l : List String) (i : Int) : Except PyErr String :=
  let j : Int := if i < 0 then i + l.length else i
  if j < 0 then Except.error PyErr.indexError
  else
    match l.get? j.toNat with
    | some s => Except.ok s
    | none => Except.error PyErr.indexError

/-- Python `l[a:b]` slicing for `int` bounds: clamps, never raises. -/
def pySliceClamp (l : List String) (a b : Int) : List String :=
  let n : Int := l.length
  let a := if a < 0 then max (a + n) 0 else min a n
  let b := if b < 0 then max (b + n) 0 else min b n
  (l.take b.toNat).drop a.toNat

/-- `LineIter`: a movable position over a fixed list of lines. -/
structure LineIter where
  lines : List String
  lineNum : Nat
  deriving DecidableEq, Repr

/-- `LineIter.has_next`. -/
def LineIter.hasNext (it : LineIter) : Bool :=
  it.lineNum < it.lines.length

/-- Result of `LineIter.next`/`peek`: a single line when `num_of_lines`
is 1, otherwise a list of lines (possibly empty). -/
inductive LinesResult where
  | one (s : String)
  | many (xs : List String)
  deriving DecidableEq, Repr

/-- `LineIter.next(num_of_lines)`.  Raises `StopIteration` when
exhausted; for `num_of_lines <= 0` it returns an empty list without
advancing (the Python assignment to `line_num` sits inside the
`if num_of_lines > 0` branch). -/
def LineIter.next (it : LineIter) (num : Int) :
    Except PyErr (LinesResult × LineIter) :=
  if !it.hasNext then Except.error PyErr.stopIteration
  else if num > 0 then
    let currentIndex := it.lineNum
    let newNum := min (currentIndex + num.toNat) it.lines.length
    let it := { it with lineNum := newNum }
    if num = 1 then
      match pyListGetInt it.lines (Int.ofNat currentIndex) with
      | Except.ok s => Except.ok (LinesResult.one s, it)
      | Except.error e => Except.error e
    else
      Except.ok (LinesResult.many (pySliceClamp it.lines currentIndex newNum), it)
  else
    Except.ok (LinesResult.many [], it)

/-- `LineIter.peek(num_of_lines, start)`.  `start or self.line_num`
falls back to the current line for `start = None` and also for
`start = 0` (Python truthiness of `or`). -/
def LineIter.peek (it : LineIter) (num : Int) (start : Option Int) :
    Except PyErr LinesResult :=
  if num > 0 then
    let st : Int :=
      match start with
      | some v => if v ≠ 0 then v else it.lineNum
      | none => it.lineNum
    let startIndex : Int := min st ((it.lines.length : Int) - 1)
    if num = 1 then
      match pyListGetInt it.lines startIndex with
      | Except.ok s => Except.ok (LinesResult.one s)
      | Except.error e => Except.error e
    else
      let endIndex : Int := min (startIndex + num) (it.lines.length : Int)
      Except.ok (LinesResult.many (pySliceClamp it.lines startIndex endIndex))
  else
    Except.ok (LinesResult.many [])

/-- `self.lines.peek()` (no arguments) as used inside the parsers.  All
those call sites are guarded by `has_next()`, so `line_num` is in range
and the `IndexError` of the general `peek` cannot occur; the `""`
default is unreachable at guarded call sites. -/
def LineIter.peekCur (it : LineIter) : String :=
  it.lines.getD (min it.lineNum (it.lines.length - 1)) ""

/-- `self.lines.next()` (one line, result discarded) as used inside the
parsers, at call sites guarded by `has_next()`. -/
def LineIter.advance (it : LineIter) : LineIter :=
  { it with lineNum := min (it.lineNum + 1) it.lines.length }

/-! ## Regex scanners for the parser patterns

Each scanner is a deterministic hand-translation of one `re` pattern
from the source.  The patterns only use `\s*`-separated word groups
over the classes `[^\s:]` / `[urbURB]` and literal characters, for
which greedy scanning without backtracking agrees with the regex
engine (a shorter group match would always place the next literal on a
character of the same class, failing identically). -/

/-- Split a maximal run of whitespace characters. -/
def scanSpaces (cs : List Char) : List Char × List Char :=
  (cs.takeWhile charIsSpace, cs.dropWhile charIsSpace)

/-- Split a maximal run of `[^\s:]` characters. -/
def scanFieldWord (cs : List Char) : List Char × List Char :=
  (cs.takeWhile (fun c => !charIsSpace c && c ≠ ':'),
   cs.dropWhile (fun c => !charIsSpace c && c ≠ ':'))

/-- A match of a parser field pattern: the captured groups and
`match.end()` (index just past the final matched character). -/
structure FieldPat where
  g1 : String
  g2 : String
  g3 : String
  endPos : Nat
  deriving DecidableEq, Repr

/-- `RestParser._field_re`:
pattern colon, `\s*`, `([^\s:]+)`, `\s*`, `([^\s:]*)`, `\s*`,
`([^\s:]*)`, `\s*`, colon — anchored at the start of the line. -/
def matchRestFieldRe (line : String) : Option FieldPat :=
  match line.data with
  | ':' :: r0 =>
      let r1 := (scanSpaces r0).2
      let (w1, r2) := scanFieldWord r1
      if w1.isEmpty then none
      else
        let r3 := (scanSpaces r2).2
        let (w2, r4) := scanFieldWord r3
        let r5 := (scanSpaces r4).2
        let (w3, r6) := scanFieldWord r5
        let r7 := (scanSpaces r6).2
        match r7 with
        | ':' :: r8 =>
            some { g1 := ⟨w1⟩, g2 := ⟨w2⟩, g3 := ⟨w3⟩,
                   endPos := line.data.length - r8.length }
        | _ => none
  | _ => none

/-- `EpytextParser._field_re`:
pattern at-sign, `([^\s:]+)`, `\s*`, `([^\s:]*)`, `\s*`, colon —
anchored at the start of the line (`g3` is unused and left empty). -/
def matchEpytextFieldRe (line : String) : Option FieldPat :=
  match line.data with
  | '@' :: r0 =>
      let (w1, r1) := scanFieldWord r0
      if w1.isEmpty then none
      else
        let r2 := (scanSpaces r1).2
        let (w2, r3) := scanFieldWord r2
        let r4 := (scanSpaces r3).2
        match r4 with
        | ':' :: r5 =>
            some { g1 := ⟨w1⟩, g2 := ⟨w2⟩, g3 := "",
                   endPos := line.data.length - r5.length }
        | _ => none
  | _ => none

/-- `BaseParser._directive_re`: pattern dot, dot, space, `([^\s:]+)`,
`\s*`, colon, colon — anchored at the start of the line. -/
def matchDirectiveRe (line : String) : Option (String × Nat) :=
  match line.data with
  | '.' :: '.' :: ' ' :: r0 =>
      let (w1, r1) := scanFieldWord r0
      if w1.isEmpty then none
      else
        let r2 := (scanSpaces r1).2
        match r2 with
        | ':' :: ':' :: r3 => some (⟨w1⟩, line.data.length - r3.length)
        | _ => none
  | _ => none

/-- The single-quote character, written numerically. -/
def singleQuoteChar : Char := Char.ofNat 39

/-- Match one of the string-quote alternatives (triple-double,
triple-single, double, single — in the alternation order of
`BaseParser._strip_start`) at the head of `cs`. -/
def quoteAt (cs : List Char) : Option (String × List Char) :=
  match cs with
  | '"' :: '"' :: '"' :: rest => some ("\"\"\"", rest)
  | c1 :: c2 :: c3 :: rest =>
      if c1 = singleQuoteChar && c2 = singleQuoteChar && c3 = singleQuoteChar then
        some (⟨[singleQuoteChar, singleQuoteChar, singleQuoteChar]⟩, rest)
      else if c1 = '"' then some ("\"", c2 :: c3 :: rest)
      else if c1 = singleQuoteChar then some (⟨[singleQuoteChar]⟩, c2 :: c3 :: rest)
      else none
  | '"' :: rest => some ("\"", rest)
  | c1 :: rest =>
      if c1 = singleQuoteChar then some (⟨[singleQuoteChar]⟩, rest) else none
  | [] => none

/-- One attempt of the `_strip_start` pattern
`(\s*)([urbURB]*)(triple-double|triple-single|double|single)` at a
fixed start position: greedy whitespace, greedy string-kind letters,
then a quote alternative. -/
def startTokensAt (cs : List Char) : Option (String × String × String × List Char) :=
  let (sp, r1) := scanSpaces cs
  let isUrb : Char → Bool := fun c =>
    c = 'u' || c = 'r' || c = 'b' || c = 'U' || c = 'R' || c = 'B'
  let urb := r1.takeWhile isUrb
  let r2 := r1.dropWhile isUrb
  match quoteAt r2 with
  | some (q, rest) => some (⟨sp⟩, ⟨urb⟩, q, rest)
  | none => none

/-- `re.search` of the `_strip_start` pattern: try each start position
from the left; the result carries the three groups and `match.end()`. -/
def startTokensScan (line : String) : Option (String × String × String × Nat) :=
  let rec go : List Char → Nat → Option (String × String × String × Nat)
    | [], _ => none
    | c :: rest, pos =>
        match startTokensAt (c :: rest) with
        | some (g1, g2, g3, remaining) =>
            some (g1, g2, g3, line.data.length - remaining.length)
        | none => go rest (pos + 1)
  go line.data 0

/-! ## Field keyword tables (`parser/rest.py`, `parser/epytext.py`) -/

def restArgFields : List String :=
  ["param", "parameter", "arg", "argument", "key", "keyword", "kwarg", "kwparam"]

def restTypeFields : List String := ["type", "vartype"]

def restRaisesFields : List String := ["raise", "raises", "except", "exception"]

def restReturnFields : List String := ["return", "returns", "rtype", "returntype"]

def restVarFields : List String :=
  ["var", "variable", "ivar", "ivariable", "cvar", "cvariable"]

def restGroupFields : List String :=
  ["parameters", "keywords", "attributes", "exceptions", "raises",
   "variables", "ivariables", "cvariables", "example", "examples"]

/-- `RestParser._triple_fields = _arg_fields + _var_fields`. -/
def restTripleFields : List String := restArgFields ++ restVarFields

/-- `RestParser._double_fields = _arg_fields + _type_fields + _raises_fields + _var_fields`. -/
def restDoubleFields : List String :=
  restArgFields ++ restTypeFields ++ restRaisesFields ++ restVarFields

/-- `RestParser._single_fields = _group_fields + _return_fields`. -/
def restSingleFields : List String := restGroupFields ++ restReturnFields

/-- `EpytextParser._single_fields = RestParser._return_fields`
(`_group_fields` is empty for epytext). -/
def epytextSingleFields : List String := restReturnFields

/-- `BaseParser._directives`: recognised directive names and their
canonical element types. -/
def directivesLookup (name : String) : Option String :=
  (([("note", "note"), ("warning", "warning"), ("warn", "warning"),
     ("see", "seealso"), ("seealso", "seealso"), ("reference", "reference"),
     ("ref", "reference"), ("todo", "todo"), ("example", "example"),
     ("examples", "example")] : List (String × String)).find?
    (fun p => p.1 = name)).map Prod.snd

/-- `RestParser._match_rest`: run the field pattern and check the
matched keyword against the arity-appropriate keyword list (Python
truthiness: an empty captured group is falsy). -/
def matchRest (line : String) : Option FieldPat :=
  match matchRestFieldRe line with
  | some m =>
      let field := pyLower m.g1
      let ok :=
        if m.g2 ≠ "" && m.g3 ≠ "" then restTripleFields.contains field
        else if m.g2 ≠ "" then restDoubleFields.contains field
        else restSingleFields.contains field
      if ok then some m else none
  | none => none

/-- `RestParser.match(line)`. -/
def restMatchLine (line : String) : Bool :=
  (matchRest line).isSome

/-- `EpytextParser.match(line)`.  Note: unlike `parse_token`, the
`match` classmethod does not lowercase the field and also accepts
directive names for single-group matches. -/
def epytextMatchLine (line : String) : Bool :=
  match matchEpytextFieldRe line with
  | some m =>
      if m.g2 ≠ "" then restDoubleFields.contains m.g1
      else epytextSingleFields.contains m.g1 || (directivesLookup m.g1).isSome
  | none => false

/-! ## Parser state and `BaseParser.__init__` -/

/-- The mutable state of a `BaseParser`/`RestParser`/`EpytextParser`
instance: the stripped line cursor, the section indent, the detected
quote token, the keyword list, the starting docstring built by
`_strip_start`, the lines saved after the docstring by `_strip_end`,
and the docstring being built. -/
structure ParseState where
  lines : LineIter
  indent : Nat
  quotes : String
  keywords : List String
  startingDoc : Docstring
  linesAfter : List String
  doc : Docstring
  deriving DecidableEq, Repr

/-- The grammar used by `parse_token`: `RestParser` or `EpytextParser`. -/
inductive PStyle where
  | rest
  | epytext
  deriving DecidableEq, Repr

/-- One step of the backward scan of `BaseParser._strip_end`: returns
the updated line list, the final `line_num` after the loop, and the
`after_quotes` item saved (if any).  Fuel covers the list length. -/
def stripEndLoop (quotes : String) : Nat → List String → Int →
    List String × Int × List String
  | 0, lines, lineNum => (lines, lineNum, [])
  | fuel + 1, lines, lineNum =>
      if lineNum < 0 then (lines, lineNum, [])
      else
        let line := pyRstrip (lines.getD lineNum.toNat "")
        match substrIndex line quotes with
        | some idx =>
            let before := strSliceTo line idx
            let lines := lines.set lineNum.toNat before
            let popped := before = "" || pyIsSpace before
            let lines := if popped then lines.eraseIdx lineNum.toNat else lines
            let lineNum := if popped then lineNum - 1 else lineNum
            let after := pyLstrip (strSliceFrom line (idx + quotes.length))
            (lines, lineNum, if after ≠ "" then [after] else [])
        | none => stripEndLoop quotes fuel lines (lineNum - 1)

/-- `BaseParser._strip_end`: find the closing quote scanning backward,
truncate the line holding it, and save any content after the quote (and
any following lines) separately. -/
def stripEnd (quotes : String) (lines : List String) : List String × List String :=
  let (l, lineNum, afterL) :=
    stripEndLoop quotes (lines.length + 1) lines ((lines.length : Int) - 1)
  let lineNum := lineNum + 1
  if lineNum < (l.length : Int) then
    (l.take lineNum.toNat, afterL ++ l.drop lineNum.toNat)
  else (l, afterL)

/-- `BaseParser.__init__(lines, keywords)`: raises `ValueError` on an
empty list or when no opening quote is found by `_strip_start`. -/
def parserInit (lines : List String) (keywords : List String) :
    Except PyErr ParseState :=
  match lines with
  | [] => Except.error (PyErr.valueError "Cannot create docstring parser with empty list.")
  | line0 :: rest =>
      match startTokensScan line0 with
      | none => Except.error (PyErr.valueError "Docstring lines must be valid python string.")
      | some (g1, g2, g3, endP) =>
          let strippedLines := (g1 ++ strSliceFrom line0 endP) :: rest
          let (finalLines, afterL) := stripEnd g3 strippedLines
          Except.ok
            { lines := { lines := finalLines, lineNum := 0 }
              indent := g1.length
              quotes := g3
              keywords := keywords
              startingDoc := emptyDocstring.addElement (Element.startQuote (g2 ++ g3))
              linesAfter := afterL
              doc := emptyDocstring }

/-- `BaseParser.current_line`: the peeked line, normalised.  A line of
pure whitespace becomes `""`; a line carrying the section indent is
dedented and right-stripped; otherwise the source calls `line.strip()`
but discards the result, so the line is returned unchanged. -/
def curLine (st : ParseState) : String :=
  let line := st.lines.peekCur
  if pyIsSpace line then ""
  else if isIndented line st.indent false then pyRstrip (dedent line st.indent)
  else line

/-- `BaseParser._is_token_indent`. -/
def isTokenIndent (st : ParseState) : Bool :=
  isIndented st.lines.peekCur st.indent true

/-- Advance the parser's cursor by one line (`self.lines.next()` with
the result discarded, at call sites guarded by `has_next`). -/
def stAdvance (st : ParseState) : ParseState :=
  { st with lines := st.lines.advance }

/-- The body-collection loop of `BaseParser.parse_body`, carrying the
collected lines and the count of pending blank lines.  On a
non-indented line the cursor is rewound past the pending blanks. -/
def parseBodyLoop (indent : Nat) : Nat → ParseState → List String → Nat →
    List String × ParseState
  | 0, st, body, _ => (body, st)
  | fuel + 1, st, body, emptyLines =>
      if st.lines.hasNext then
        let line := curLine st
        if line = "" then
          parseBodyLoop indent fuel (stAdvance st) body (emptyLines + 1)
        else if isIndented line indent false then
          let body := body ++ List.replicate emptyLines "" ++ [line]
          parseBodyLoop indent fuel (stAdvance st) body 0
        else
          let rewound := { st.lines with lineNum := st.lines.lineNum - emptyLines }
          (body, { st with lines := rewound })
      else (body, st)

/-- `BaseParser.parse_body(indent, startpos)`. -/
def parseBody (st : ParseState) (indent : Nat) (startpos : Nat) :
    List String × ParseState :=
  let firstLine := pyLstrip (strSliceFrom (curLine st) startpos)
  let st := stAdvance st
  let (body, st) := parseBodyLoop indent (st.lines.lines.length + 1) st [] 0
  let body := dedentByMinimum body
  let body := if firstLine ≠ "" then firstLine :: body else body
  (body, st)

/-- `BaseParser.parse_directive` (shared): the directive kind has
already been looked up in `_directives`. -/
def parseDirective (st : ParseState) (dir : String) (endP : Nat) : ParseState :=
  let (body, st) := parseBody st 1 endP
  { st with doc := st.doc.addElement (Element.directive dir body) }

/-- `RestParser.parse_arg` / `EpytextParser.parse_arg`.  The epytext
override takes the argument from group 2 and has no type group. -/
def parseArg (style : PStyle) (st : ParseState) (m : FieldPat) : ParseState :=
  match style with
  | PStyle.rest =>
      let kind := if m.g3 ≠ "" then some m.g2 else none
      let arg := if m.g3 ≠ "" then m.g3 else m.g2
      let (desc, st) := parseBody st 1 m.endPos
      let optional := st.keywords.contains (pyLstripStars arg)
      { st with doc := st.doc.addArg arg kind (some desc) optional }
  | PStyle.epytext =>
      let arg := m.g2
      let (desc, st) := parseBody st 1 m.endPos
      let optional := st.keywords.contains (pyLstripStars arg)
      { st with doc := st.doc.addArg arg none (some desc) optional }

/-- `RestParser.parse_var` / `EpytextParser.parse_var`. -/
def parseVar (style : PStyle) (st : ParseState) (m : FieldPat) : ParseState :=
  match style with
  | PStyle.rest =>
      let kind := if m.g3 ≠ "" then some m.g2 else none
      let var := if m.g3 ≠ "" then m.g3 else m.g2
      let (desc, st) := parseBody st 1 m.endPos
      { st with doc := st.doc.addAttribute var kind (some desc) }
  | PStyle.epytext =>
      let var := m.g2
      let (desc, st) := parseBody st 1 m.endPos
      { st with doc := st.doc.addAttribute var none (some desc) }

/-- `RestParser.parse_type`. -/
def parseType (st : ParseState) (m : FieldPat) : ParseState :=
  let field := pyLower m.g1
  let arg := pyLstripStars m.g2
  let (body, st) := parseBody st 1 m.endPos
  let kind := pyJoin " " body
  let isAttribute :=
    odMem st.doc.attribute_fields arg && !odMem st.doc.arg_fields arg
  if field = "vartype" || isAttribute then
    { st with doc := st.doc.addAttributeType arg kind }
  else
    { st with doc := st.doc.addArgType arg kind }

/-- `RestParser.parse_return`. -/
def parseReturn (st : ParseState) (m : FieldPat) : ParseState :=
  let field := pyLower m.g1
  let (body, st) := parseBody st 1 m.endPos
  if field = "rtype" || field = "returntype" then
    { st with doc := st.doc.addReturnType (pyJoin " " body) }
  else
    { st with doc := st.doc.addReturn none (some body) }

/-- The sub-line loop of `RestParser.parse_group` for non-example
groups: each indented sub-line is split at the first colon into a name
and optional type, its body collected one column deeper than its own
indent, and dispatched to the table selected by the group keyword. -/
def parseGroupLoop (group : String) : Nat → ParseState → ParseState
  | 0, st => st
  | fuel + 1, st =>
      if st.lines.hasNext && isIndented (curLine st) 1 false then
        let line := curLine st
        let ind := getIndent line
        let (namePart, kindPart) := pySplitOnce line ':'
        let name := pyStrip namePart
        let kind := kindPart.map pyStrip
        let (body, st) := parseBody st (ind + 1) line.length
        let st :=
          if (["attributes", "variables", "ivariables", "cvariables"] : List String).contains group then
            { st with doc := st.doc.addAttribute name kind (some body) }
          else if group = "exceptions" || group = "raises" then
            { st with doc := st.doc.addRaises name (some body) }
          else
            let optional := st.keywords.contains (pyLstripStars name)
            { st with doc := st.doc.addArg name kind (some body) optional }
        parseGroupLoop group fuel st
      else st

/-- `RestParser.parse_group`. -/
def parseGroup (st : ParseState) (m : FieldPat) : ParseState :=
  let group := pyLower m.g1
  if group = "example" || group = "examples" then
    let (body, st) := parseBody st 1 m.endPos
    { st with doc := st.doc.addElement (Element.directive "example" body) }
  else
    let st := stAdvance st
    parseGroupLoop group (st.lines.lines.length + 1) st

/-- `RestParser.parse_raise`: an empty second group means the line was a
grouped raises header. -/
def parseRaise (st : ParseState) (m : FieldPat) : ParseState :=
  if m.g2 = "" then parseGroup st m
  else
    let kind := m.g2
    let (desc, st) := parseBody st 1 m.endPos
    { st with doc := st.doc.addRaises kind (some desc) }

/-- The `_parse_map` dispatch for `RestParser`, built by
`dict_utils.setup_map` from the list `[(group, parse_group), (type,
parse_type), (return, parse_return), (var, parse_var), (raises,
parse_raise), (arg, parse_arg)]`; later entries overwrite earlier ones
for duplicate keys, so membership is tested in reverse list order. -/
def restDispatch (st : ParseState) (m : FieldPat) : ParseState :=
  let field := pyLower m.g1
  if restArgFields.contains field then parseArg PStyle.rest st m
  else if restRaisesFields.contains field then parseRaise st m
  else if restVarFields.contains field then parseVar PStyle.rest st m
  else if restReturnFields.contains field then parseReturn st m
  else if restTypeFields.contains field then parseType st m
  else if restGroupFields.contains field then parseGroup st m
  else st

/-- The `_parse_map` dispatch for an `EpytextParser` instance (built by
the inherited initializer with epytext's empty `_group_fields`). -/
def epytextDispatch (st : ParseState) (m : FieldPat) : ParseState :=
  let field := pyLower m.g1
  if restArgFields.contains field then parseArg PStyle.epytext st m
  else if restRaisesFields.contains field then parseRaise st m
  else if restVarFields.contains field then parseVar PStyle.epytext st m
  else if restReturnFields.contains field then parseReturn st m
  else if restTypeFields.contains field then parseType st m
  else st

/-- `parse_token` for the selected grammar; `none` models a raised
`NotParsableError`. -/
def parseToken (style : PStyle) (st : ParseState) : Option ParseState :=
  match style with
  | PStyle.rest =>
      match matchRest (curLine st) with
      | some m => some (restDispatch st m)
      | none =>
          match matchDirectiveRe (curLine st) with
          | some (name, endP) =>
              match directivesLookup name with
              | some dir => some (parseDirective st dir endP)
              | none => none
          | none => none
  | PStyle.epytext =>
      match matchEpytextFieldRe (curLine st) with
      | some m =>
          let field := pyLower m.g1
          let matchesEpy :=
            if m.g2 ≠ "" then restDoubleFields.contains field
            else epytextSingleFields.contains field
          if matchesEpy then some (epytextDispatch st m)
          else
            match directivesLookup m.g1 with
            | some dir => some (parseDirective st dir m.endPos)
            | none => none
      | none => none

/-- The leading-blank loop at the top of `BaseParser.parse`: blank lines
are re-emitted as raw elements; the indent of the first non-blank line
(its leading `\s*` run) becomes the token indent. -/
def parsePhaseOne : Nat → ParseState → ParseState
  | 0, st => st
  | fuel + 1, st =>
      if st.lines.hasNext then
        let c := curLine st
        if c ≠ "" then
          { st with indent := (st.lines.peekCur.data.takeWhile charIsSpace).length }
        else
          let st := { st with doc := st.doc.addElement (Element.raw c) }
          parsePhaseOne fuel (stAdvance st)
      else st

/-- The token loop of `BaseParser.parse`: lines at the exact token
indent go through `parse_token`, falling back to raw on
`NotParsableError`; all other lines are raw. -/
def parseMainLoop (style : PStyle) : Nat → ParseState → ParseState
  | 0, st => st
  | fuel + 1, st =>
      if st.lines.hasNext then
        if isTokenIndent st then
          match parseToken style st with
          | some st' => parseMainLoop style fuel st'
          | none =>
              let st := { st with doc := st.doc.addElement (Element.raw (curLine st)) }
              parseMainLoop style fuel (stAdvance st)
        else
          let st := { st with doc := st.doc.addElement (Element.raw (curLine st)) }
          parseMainLoop style fuel (stAdvance st)
      else st

/-- `BaseParser.parse` on an initialised parser state: start from (a
copy of) the starting docstring, run both loops, then append the end
quote and any saved after-docstring lines. -/
def runParse (style : PStyle) (st : ParseState) : Docstring :=
  let st := { st with doc := st.startingDoc }
  let st := parsePhaseOne (st.lines.lines.length + 1) st
  let st := parseMainLoop style (st.lines.lines.length + 1) st
  let doc := st.doc.addElement (Element.endQuote st.quotes)
  if st.linesAfter ≠ [] then doc.addElement (Element.rawList st.linesAfter) else doc

/-- Construct a parser for the capture lines and run `parse`, returning
the resulting `Docstring` (or the initialiser's `ValueError`). -/
def parseCapture (style : PStyle) (lines : List String) (keywords : List String) :
    Except PyErr Docstring :=
  match parserInit lines keywords with
  | Except.ok st => Except.ok (runParse style st)
  | Except.error e => Except.error e

/-! ## Writer configuration (`configuration.py`, `writer/base.py`) -/

/-- `writer.base.BackTickRemovalOption` (FALSE / TRUE / DIRECTIVES). -/
inductive BackTickOpt where
  | bFalse
  | bTrue
  | bDirectives
  deriving DecidableEq, Repr

/-- `writer.base.EpytextMarkupConvertOption` (FALSE / TRUE / TYPES). -/
inductive EpyConvertOpt where
  | eFalse
  | eTrue
  | eTypes
  deriving DecidableEq, Repr

/-- The `output` section of a `DocconvertConfiguration` as read by the
writers.  `convert_epytext_markup` is read unconditionally by
`BaseWriter.__init__` but is absent from `DEFAULT_CONFIG` (see the
configuration embedding below); a value must therefore be supplied to
run the writers at all. -/
structure OutputConfig where
  first_line : Bool
  replace_quotes : String
  standard_indent : String
  tab_length : Nat
  realign : Bool
  max_line_length : Int
  use_optional : Bool
  remove_type_back_ticks : BackTickOpt
  use_types : Bool
  separate_keywords : Bool
  convert_epytext_markup : EpyConvertOpt
  deriving DecidableEq, Repr

/-- The values of `DEFAULT_CONFIG["output"]` in `configuration.py`,
completed with `convert_epytext_markup` switched off.  The Python
default dictionary has no `convert_epytext_markup` key (the writers
crash on it, claim C10); "off" is the interface default named by the
specification (`convert_markup: off`), under which
`convert_epytext_markup` is the identity on text, and is the only
completion that lets the remaining options be exercised. -/
def defaultOutputConfig : OutputConfig :=
  { first_line := true
    replace_quotes := ""
    standard_indent := "    "
    tab_length := 4
    realign := true
    max_line_length := 72
    use_optional := false
    remove_type_back_ticks := BackTickOpt.bTrue
    use_types := true
    separate_keywords := false
    convert_epytext_markup := EpyConvertOpt.eFalse }

/-- The default configuration with `realign` disabled, as required by
the round-trip claim C3. -/
def noRealignConfig : OutputConfig :=
  { defaultOutputConfig with realign := false }

/-! ## A model of Python `textwrap.wrap` with default options

`BaseWriter._reformat_lines` calls `textwrap.wrap(text, width,
initial_indent, subsequent_indent)`.  This model implements CPython's
`TextWrapper.wrap` for its default options (`expand_tabs=True` with
tab size 8, `replace_whitespace=True`, `drop_whitespace=True`,
`break_long_words=True`, no `max_lines`), with two simplifications
that do not affect the texts wrapped in this development: chunks are
split only at whitespace (the default `wordsep_re` additionally splits
after hyphens, which only moves wrap points inside hyphenated words),
and the `break_on_hyphens` refinement of long-word breaking is
omitted. -/

/-- Tab expansion followed by whitespace replacement
(`_munge_whitespace`). -/
def twMunge (text : String) : String :=
  ⟨(text.data.flatMap (fun c => if c = '\t' then List.replicate 8 ' ' else [c])).map
    (fun c => if charIsSpace c then ' ' else c)⟩

/-- Split into maximal chunks of spaces / non-spaces (`_split`).  Fuel
covers the character count. -/
def twSplitChunks : Nat → List Char → List String
  | 0, _ => []
  | _, [] => []
  | fuel + 1, c :: rest =>
      if c = ' ' then
        ⟨c :: rest.takeWhile (· = ' ')⟩ :: twSplitChunks fuel (rest.dropWhile (· = ' '))
      else
        ⟨c :: rest.takeWhile (· ≠ ' ')⟩ :: twSplitChunks fuel (rest.dropWhile (· ≠ ' '))

/-- Greedily take chunks that fit on the current line
(`while chunks: ... if cur_len + l <= width`). -/
def twFillLine (width : Int) : List String → List String → Int →
    List String × List String
  | [], curLine, _ => (curLine, [])
  | chunk :: rest, curLine, curLen =>
      if curLen + chunk.length ≤ width then
        twFillLine width rest (curLine ++ [chunk]) (curLen + chunk.length)
      else (curLine, chunk :: rest)

/-- Whether a chunk is pure whitespace (`chunk.strip() == ''`). -/
def twIsBlank (chunk : String) : Bool :=
  pyStrip chunk = ""

/-- The per-line loop of `TextWrapper._wrap_chunks`.  Fuel covers the
chunk count (every iteration consumes at least one chunk or one
character of a long chunk). -/
def twWrapChunks (width : Int) (initialIndent subsequentIndent : String) :
    Nat → List String → List String → List String
  | 0, _, lines => lines
  | fuel + 1, chunks, lines =>
      match chunks with
      | [] => lines
      | _ =>
          let indent := if lines.isEmpty then initialIndent else subsequentIndent
          let lineWidth : Int := width - indent.length
          let chunks :=
            match chunks with
            | first :: rest =>
                if twIsBlank first && !lines.isEmpty then rest else first :: rest
            | [] => []
          let (curLine, chunks) := twFillLine lineWidth chunks [] 0
          let (curLine, chunks) :=
            match chunks with
            | first :: rest =>
                if (first.length : Int) > lineWidth then
                  -- `_handle_long_word` with `break_long_words=True`
                  let curLen : Int := (curLine.map String.length).sum
                  let spaceLeft : Int := if lineWidth < 1 then 1 else lineWidth - curLen
                  let endN := spaceLeft.toNat
                  (curLine ++ [strSliceTo first endN], strSliceFrom first endN :: rest)
                else (curLine, first :: rest)
            | [] => (curLine, [])
          let curLine :=
            match curLine.getLast? with
            | some lastC => if twIsBlank lastC then curLine.dropLast else curLine
            | none => curLine
          let lines :=
            if curLine.isEmpty then lines
            else lines ++ [indent ++ String.join curLine]
          twWrapChunks width initialIndent subsequentIndent fuel chunks lines

/-- `textwrap.wrap(text, width, initial_indent=i0, subsequent_indent=i1)`
under the default options, as modelled above. -/
def textwrapWrap (width : Int) (initialIndent subsequentIndent : String)
    (text : String) : List String :=
  let munged := (twMunge text).data
  let chunks := twSplitChunks (munged.length + 1) munged
  twWrapChunks width initialIndent subsequentIndent
    (chunks.length + (text.length + 1)) chunks []

/-! ## Writer (`writer/base.py`, `writer/rest.py`, `writer/epytext.py`) -/

/-- The renderer-specific tokens of `RestWriter` and its `EpytextWriter`
subclass: `_directive_token`, `_var_token`, `_field_token`,
`_attr_type`.  The Python `str.format` templates are modelled as
functions. -/
structure WStyle where
  directiveToken : String → String
  varToken : String → String → String
  fieldToken : String → String
  attrType : String

/-- `RestWriter` tokens (`".. {0}::"`, `":{0} {1}:"`, `":{0}:"`,
`"vartype"`). -/
def restWStyle : WStyle :=
  { directiveToken := fun s => ".. " ++ s ++ "::"
    varToken := fun f v => ":" ++ f ++ " " ++ v ++ ":"
    fieldToken := fun f => ":" ++ f ++ ":"
    attrType := "vartype" }

/-- `EpytextWriter` tokens (`"@{0}:"`, `"@{0} {1}:"`, `"@{0}:"`,
`"type"`). -/
def epytextWStyle : WStyle :=
  { directiveToken := fun s => "@" ++ s ++ ":"
    varToken := fun f v => "@" ++ f ++ " " ++ v ++ ":"
    fieldToken := fun f => "@" ++ f ++ ":"
    attrType := "type" }

/-- The immutable context of one writer instance: the docstring, the
configuration, the starting section indent, the variadic argument
names, and the renderer tokens. -/
structure WCtx where
  doc : Docstring
  cfg : OutputConfig
  sectionIndent : String
  vararg : String
  kwarg : String
  style : WStyle

/-- `self._indent` (the configured standard indent unit). -/
def WCtx.indentUnit (ctx : WCtx) : String :=
  ctx.cfg.standard_indent

/-- `self._using_tabs`. -/
def WCtx.usingTabs (ctx : WCtx) : Bool :=
  ctx.indentUnit.data.contains '\t'

/-- `BaseWriter._calculate_max_line_length`. -/
def WCtx.maxLength (ctx : WCtx) : Int :=
  let prefixLen : Int :=
    if ctx.usingTabs then (ctx.sectionIndent.length : Int) * ctx.cfg.tab_length
    else ctx.sectionIndent.length
  ctx.cfg.max_line_length - prefixLen

/-- The mutable output state of a writer (`self.output`,
`self._elements_written`, `self._quotes`).  `self._current_element` is
only read by the numpy renderer, which is not modelled here. -/
structure WState where
  output : List String
  elementsWritten : Nat
  quotesW : String
  deriving DecidableEq, Repr

/-- Fresh writer output state. -/
def emptyWState : WState :=
  { output := [], elementsWritten := 0, quotesW := "" }

/-- The backtick character, written numerically. -/
def backtickChar : Char := Char.ofNat 96

/-- A `[^\s`]` chunk character for the backtick patterns. -/
def btWordChar (c : Char) : Bool :=
  !charIsSpace c && c ≠ backtickChar

/-- `re.sub` of the TRUE-mode pattern: a backtick not preceded by a
colon, a nonempty run of non-space non-backtick characters, a backtick;
each match is replaced by the inner run.  Fuel covers the character
count. -/
def btSubTrue : Nat → Option Char → List Char → List Char
  | 0, _, cs => cs
  | _, _, [] => []
  | fuel + 1, prev, c :: rest =>
      if c = backtickChar && prev ≠ some ':' then
        let inner := rest.takeWhile btWordChar
        let r2 := rest.dropWhile btWordChar
        if !inner.isEmpty then
          match r2 with
          | c2 :: r3 =>
              if c2 = backtickChar then inner ++ btSubTrue fuel (some backtickChar) r3
              else c :: btSubTrue fuel (some c) rest
          | [] => c :: btSubTrue fuel (some c) rest
        else c :: btSubTrue fuel (some c) rest
      else c :: btSubTrue fuel (some c) rest

/-- `re.sub` of the DIRECTIVES-mode pattern: an optional run of
non-space non-backtick characters, then a backticked nonempty run; the
whole match is replaced by the inner run.  Fuel covers the character
count. -/
def btSubDirectives : Nat → List Char → List Char
  | 0, cs => cs
  | _, [] => []
  | fuel + 1, c :: rest =>
      let r1 := (c :: rest).dropWhile btWordChar
      match r1 with
      | b :: r2 =>
          if b = backtickChar then
            let inner := r2.takeWhile btWordChar
            let r3 := r2.dropWhile btWordChar
            if !inner.isEmpty then
              match r3 with
              | b2 :: r4 =>
                  if b2 = backtickChar then inner ++ btSubDirectives fuel r4
                  else c :: btSubDirectives fuel rest
              | [] => c :: btSubDirectives fuel rest
            else c :: btSubDirectives fuel rest
          else c :: btSubDirectives fuel rest
      | [] => c :: rest

/-- `BaseWriter.remove_back_ticks`. -/
def removeBackTicks (ctx : WCtx) (text : String) : String :=
  if text = "" then text
  else
    match ctx.cfg.remove_type_back_ticks with
    | BackTickOpt.bFalse => text
    | BackTickOpt.bTrue => ⟨btSubTrue (text.length + 1) none text.data⟩
    | BackTickOpt.bDirectives => ⟨btSubDirectives (text.length + 1) text.data⟩

/-- Opening and closing brace characters, written numerically. -/
def lbraceChar : Char := Char.ofNat 123

def rbraceChar : Char := Char.ofNat 125

/-- `_replace_epytext_markup` for one match. -/
def epyReplaceOne (removeTypes inType : Bool) (tag : Char) (inner : List Char) :
    List Char :=
  if tag = 'I' then '*' :: inner ++ ['*']
  else if tag = 'B' then '*' :: '*' :: inner ++ ['*', '*']
  else if tag = 'M' then
    (":math:" ++ ⟨[backtickChar]⟩).data ++ inner ++ [backtickChar]
  else if tag = 'C' then
    if !inType || !removeTypes then
      [backtickChar, backtickChar] ++ inner ++ [backtickChar, backtickChar]
    else inner
  else inner

/-- `re.sub` of the epytext markup pattern: a tag in `IBMC`, an opening
brace, a run without closing braces, a closing brace.  Fuel covers the
character count. -/
def epyMarkupSub (removeTypes inType : Bool) : Nat → List Char → List Char
  | 0, cs => cs
  | _, [] => []
  | fuel + 1, c :: rest =>
      if c = 'I' || c = 'B' || c = 'M' || c = 'C' then
        match rest with
        | b :: r2 =>
            if b = lbraceChar then
              let inner := r2.takeWhile (· ≠ rbraceChar)
              let r3 := r2.dropWhile (· ≠ rbraceChar)
              match r3 with
              | _ :: r4 =>
                  epyReplaceOne removeTypes inType c inner ++
                    epyMarkupSub removeTypes inType fuel r4
              | [] => c :: epyMarkupSub removeTypes inType fuel rest
            else c :: epyMarkupSub removeTypes inType fuel rest
        | [] => [c]
      else c :: epyMarkupSub removeTypes inType fuel rest

/-- `BaseWriter.convert_epytext_markup(text, in_type)`: identity when
the option is off (the compiled regex is `None`). -/
def convertEpytextMarkup (ctx : WCtx) (text : String) (inType : Bool) : String :=
  if text = "" then text
  else
    match ctx.cfg.convert_epytext_markup with
    | EpyConvertOpt.eFalse => text
    | EpyConvertOpt.eTrue => ⟨epyMarkupSub false inType (text.length + 1) text.data⟩
    | EpyConvertOpt.eTypes => ⟨epyMarkupSub true inType (text.length + 1) text.data⟩

/-- `BaseWriter.write_line(line, indent, append, force)`. -/
def writeLine (ctx : WCtx) (st : WState) (line : String) (indent : Nat)
    (append force : Bool) : WState :=
  let indentStr := ctx.sectionIndent ++ strRepeat ctx.indentUnit indent
  let blank := line = "" || pyIsSpace line
  let afterQuote := st.elementsWritten = 1
  let afterNewline := st.output.getLast? = some "\n"
  if blank && !force && (afterQuote || afterNewline) then st
  else
    let line := if blank then "" else line
    let indentStr := if blank then "" else indentStr
    let line := pyRstrip line
    if append then
      match st.output.getLast? with
      | some lastL =>
          { st with
            output := st.output.dropLast ++ [pyRstrip lastL ++ line ++ "\n"]
            elementsWritten := st.elementsWritten + 1 }
      | none => st
    else
      { st with
        output := st.output ++ [indentStr ++ line ++ "\n"]
        elementsWritten := st.elementsWritten + 1 }

/-- `BaseWriter.write_raw(lines)` (a raw string is wrapped in a
singleton list before the loop). -/
def writeRaw (ctx : WCtx) (st : WState) (lines : List String) : WState :=
  lines.foldl
    (fun st line =>
      let app := st.elementsWritten = 1 && ctx.cfg.first_line
      let line := convertEpytextMarkup ctx line false
      writeLine ctx st line 0 app false)
    st

/-- `BaseWriter._is_longer_than_max(line, indent)`. -/
def isLongerThanMax (ctx : WCtx) (line : String) (indent : Nat) : Bool :=
  ((indent * ctx.cfg.standard_indent.length : Nat) + line.length : Int) > ctx.maxLength

/-- The indexed loop of `BaseWriter._reformat_lines`, returning the
final loop `indent`, `replace_to` and the accumulated non-realigned
lines. -/
def reformatLoop (ctx : WCtx) (hanging : Bool) :
    List String → Nat → Nat → Bool → Nat → List String → Nat × Nat × List String
  | [], _, indent, _, replaceTo, newLines => (indent, replaceTo, newLines)
  | line :: rest, i, indent, realigning, replaceTo, newLines =>
      let indent := if i = 1 && hanging then indent + 1 else indent
      let realigning := if line = "" || isIndented line 1 false then false else realigning
      if !realigning then
        reformatLoop ctx hanging rest (i + 1) indent realigning replaceTo
          (newLines ++ [strRepeat ctx.indentUnit indent ++ line])
      else
        reformatLoop ctx hanging rest (i + 1) indent realigning (i + 1) newLines

/-- `BaseWriter._reformat_lines(lines, indent, hanging)`. -/
def reformatLines (ctx : WCtx) (lines : List String) (indentStart : Nat)
    (hanging : Bool) : List String :=
  let wrapLength : Int :=
    if ctx.usingTabs then
      ctx.maxLength -
        ((indentStart + (if hanging then 1 else 0)) * ctx.cfg.tab_length : Nat)
    else ctx.maxLength
  let (finalIndent, replaceTo, newLines) :=
    reformatLoop ctx hanging lines 0 indentStart ctx.cfg.realign 0 []
  if replaceTo ≠ 0 then
    let realignText := pyJoin " " (lines.take replaceTo)
    let subsequentIndent := if hanging then finalIndent else indentStart
    textwrapWrap wrapLength (strRepeat ctx.indentUnit indentStart)
      (strRepeat ctx.indentUnit subsequentIndent) realignText ++ newLines
  else newLines

/-- `BaseWriter.write_desc(desc, header, indent, hanging)`. -/
def writeDesc (ctx : WCtx) (st : WState) (desc : List String)
    (header : Option String) (indent : Nat) (hanging : Bool) : WState :=
  let desc := desc.map (fun l => convertEpytextMarkup ctx l false)
  let (st, desc) :=
    match header with
    | some h =>
        if isLongerThanMax ctx h indent then
          let st := writeLine ctx st h indent false false
          let nextIndent := if hanging then indent + 1 else indent
          (st, reformatLines ctx desc nextIndent false)
        else
          (st, reformatLines ctx (h :: desc) indent hanging)
    | none => (st, reformatLines ctx desc indent hanging)
  desc.foldl (fun st line => writeLine ctx st line 0 false false) st

/-- `re.sub` of the quote alternation in `BaseWriter.write_quotes`.
Fuel covers the character count. -/
def replaceQuotesSub (rep : String) : Nat → List Char → List Char
  | 0, cs => cs
  | _, [] => []
  | fuel + 1, c :: rest =>
      match quoteAt (c :: rest) with
      | some (_, r) => rep.data ++ replaceQuotesSub rep fuel r
      | none => c :: replaceQuotesSub rep fuel rest

/-- `BaseWriter.write_quotes(kind, quotes)`. -/
def writeQuotes (ctx : WCtx) (st : WState) (isEnd : Bool) (quotes : String) : WState :=
  let quotes :=
    if ctx.cfg.replace_quotes ≠ "" then
      ⟨replaceQuotesSub ctx.cfg.replace_quotes (quotes.length + 1) quotes.data⟩
    else quotes
  let st := { st with quotesW := quotes }
  let oneLineDoc := isEnd && st.output.length = 1
  writeLine ctx st quotes 0 oneLineDoc false

/-- `RestWriter.write_var(var, field, type_field, use_optional)`. -/
def writeVar (ctx : WCtx) (st : WState) (var : DocField) (field : String)
    (typeField : String) (useOptional : Bool) : WState :=
  let optional :=
    if useOptional && ctx.cfg.use_optional && var.optional then "optional" else ""
  let kind := if ctx.cfg.use_types then var.kind else ""
  let kind := removeBackTicks ctx kind
  let kind := pyJoin ", " (([kind, optional]).filter (· ≠ ""))
  let header := ctx.style.varToken field var.name
  let st := writeDesc ctx st var.desc (some header) 0 true
  if kind ≠ "" then
    let header := ctx.style.varToken typeField var.name
    writeDesc ctx st [kind] (some header) 0 true
  else st

/-- `RestWriter.write_args`. -/
def writeArgs (ctx : WCtx) (st : WState) : WState :=
  let values := ctx.doc.arg_fields.map Prod.snd
  let args := values.filter (fun a => !(ctx.cfg.separate_keywords && a.optional))
  let keywords := values.filter (fun a => ctx.cfg.separate_keywords && a.optional)
  let st := args.foldl (fun st a => writeVar ctx st a "param" "type" true) st
  keywords.foldl (fun st a => writeVar ctx st a "keyword" "type" false) st

/-- `RestWriter.write_attributes`. -/
def writeAttributes (ctx : WCtx) (st : WState) : WState :=
  (ctx.doc.attribute_fields.map Prod.snd).foldl
    (fun st v => writeVar ctx st v "var" ctx.style.attrType false) st

/-- `RestWriter.write_raises`. -/
def writeRaises (ctx : WCtx) (st : WState) : WState :=
  ctx.doc.raise_fields.foldl
    (fun st v =>
      let kind := removeBackTicks ctx v.kind
      let header := ctx.style.varToken "raises" kind
      writeDesc ctx st v.desc (some header) 0 true)
    st

/-- `RestWriter.write_returns`.  The `return_field` access is guarded in
practice: a return marker element is only ever added together with the
field, so the `none` branch (a Python `AttributeError`) is unreachable
and left as the identity. -/
def writeReturns (ctx : WCtx) (st : WState) : WState :=
  match ctx.doc.return_field with
  | none => st
  | some rf =>
      let kind := removeBackTicks ctx rf.kind
      let st :=
        if rf.desc ≠ [] then
          writeDesc ctx st rf.desc (some (ctx.style.fieldToken "returns")) 0 true
        else st
      if kind ≠ "" then
        writeDesc ctx st [kind] (some (ctx.style.fieldToken "rtype")) 0 true
      else st

/-- `RestWriter.write_directive`. -/
def writeDirectiveW (ctx : WCtx) (st : WState) (name : String)
    (body : List String) : WState :=
  let header := ctx.style.directiveToken name
  (body.enum.foldl
    (fun st p =>
      if p.1 = 0 then writeDesc ctx st [p.2] (some header) 0 true
      else writeLine ctx st p.2 1 false false)
    st)

/-- `BaseWriter.write`: dispatch every element of the docstring.  All
`Element` variants are recognised kinds, so the
`InvalidDocstringElementError` branch has no counterpart here. -/
def writeAll (ctx : WCtx) : List String :=
  (ctx.doc.elements.foldl
    (fun st e =>
      match e with
      | Element.startQuote q => writeQuotes ctx st false q
      | Element.endQuote q => writeQuotes ctx st true q
      | Element.raw s => writeRaw ctx st [s]
      | Element.rawList xs => writeRaw ctx st xs
      | Element.args => writeArgs ctx st
      | Element.attributes => writeAttributes ctx st
      | Element.raisesMarker => writeRaises ctx st
      | Element.returnMarker => writeReturns ctx st
      | Element.directive name body => writeDirectiveW ctx st name body)
    emptyWState).output

/-- Run the reST writer on a docstring with the given configuration and
section indent (no variadic names). -/
def restWrite (cfg : OutputConfig) (indent : String) (doc : Docstring) : List String :=
  writeAll { doc := doc, cfg := cfg, sectionIndent := indent,
             vararg := "", kwarg := "", style := restWStyle }

/-- Run the epytext writer on a docstring with the given configuration
and section indent (no variadic names). -/
def epytextWrite (cfg : OutputConfig) (indent : String) (doc : Docstring) : List String :=
  writeAll { doc := doc, cfg := cfg, sectionIndent := indent,
             vararg := "", kwarg := "", style := epytextWStyle }

/-! ## Declaration locator (`parser/module.py`, class `ModuleParser`)

The locator is embedded at the level of the abstract syntax tree: a
statement is a module/class/function definition with a body, a bare
assignment, a bare string-literal expression statement, or any other
node.  `_parse_definition` / `_find_docstring` locate a definition's
docstring by re-lexing its line range; for a definition with an
indented body that computation yields a capture exactly when the first
statement of the body is a bare string literal, which is how it is
rendered here (captures are identified by their string content; line
bookkeeping is dropped).  What is modelled exactly is the traversal:
`_generic_visit` walks children through a shared iterator per body, and
`_visit_assign` consumes the following sibling from that same iterator
(`next(siblings, None)`), so the sibling is never visited by the
parent's loop. -/

inductive PyNode where
  | functionDef (name : String) (body : List PyNode)
  | classDef (name : String) (body : List PyNode)
  | assign (target : String)
  | exprStr (s : String)
  | other (children : List PyNode)

/-- The docstring capture of a definition node per
`_parse_definition`/`_find_docstring`: present exactly when the body's
first statement is a bare string literal. -/
def defDocCapture (body : List PyNode) : List String :=
  match body.head? with
  | some (PyNode.exprStr s) => [s]
  | _ => []

/-- The `for child in children` loop over one body's shared iterator.
An `assign` additionally consumes its next sibling
(`next(siblings, None)`): a string-literal sibling becomes an
attribute docstring capture; any other consumed sibling is dropped
without being visited.  A `functionDef`/`classDef` child contributes
its own docstring capture (per `_visit_functiondef`/`_visit_classdef`)
followed by its body's captures; `other` nodes are traversed
generically.  Fuel covers the total number of AST nodes. -/
def walkBody : Nat → List PyNode → List String
  | 0, _ => []
  | _, [] => []
  | fuel + 1, PyNode.assign _ :: rest =>
      match rest with
      | PyNode.exprStr s :: rest2 => s :: walkBody fuel rest2
      | _ :: rest2 => walkBody fuel rest2
      | [] => []
  | fuel + 1, PyNode.functionDef _ body :: rest =>
      defDocCapture body ++ walkBody fuel body ++ walkBody fuel rest
  | fuel + 1, PyNode.classDef _ body :: rest =>
      defDocCapture body ++ walkBody fuel body ++ walkBody fuel rest
  | fuel + 1, PyNode.exprStr _ :: rest => walkBody fuel rest
  | fuel + 1, PyNode.other children :: rest =>
      walkBody fuel children ++ walkBody fuel rest

/-- `ModuleParser.parse` on a module with the given statement list:
the module docstring capture (`_visit_module`), then the walk of the
module body.  Fuel covers the total number of AST nodes. -/
def moduleParse (fuel : Nat) (body : List PyNode) : List String :=
  defDocCapture body ++ walkBody fuel body

/-! ## Token stream (`parser/module.py`, class `TokenStream`) -/

/-- The token kinds used by the locator. -/
inductive TokKind where
  | nameTok
  | opTok
  | newlineTok
  | nlTok
  | commentTok
  | indentTok
  | dedentTok
  | stringTok
  | endmarkerTok
  deriving DecidableEq, Repr

/-- A lexical token (kind, value, start row, end row). -/
structure Tok where
  kind : TokKind
  value : String
  startRow : Nat
  endRow : Nat
  deriving DecidableEq, Repr

/-- A `tokenize` generator: each pull either yields a token or raises
(as tokenizing a mid-file fragment does when a dedent does not match
any open indentation level).  The empty list models exhaustion. -/
abbrev TokGen := List (Except PyErr Tok)

/-- `TokenStream` state: the current token (if any) and the rest of the
generator. -/
structure TokenStream where
  current : Option Tok
  gen : TokGen
  deriving Repr

/-- `TokenStream.__init__`: pulls the first token; a raise on that first
pull propagates. -/
def tsMake (items : TokGen) : Except PyErr TokenStream :=
  match items with
  | [] => Except.ok { current := none, gen := [] }
  | Except.ok t :: rest => Except.ok { current := some t, gen := rest }
  | Except.error e :: _ => Except.error e

/-- `TokenStream.next`: returns the current token after pulling the
next one from the generator.  The pull `next(self._generator, None)` is
NOT wrapped in any handler in the source, so an `IndentationError`
raised by the generator propagates out of `next`. -/
def tsNext (ts : TokenStream) : Except PyErr (Tok × TokenStream) :=
  match ts.current with
  | none => Except.error PyErr.stopIteration
  | some cur =>
      match ts.gen with
      | [] => Except.ok (cur, { current := none, gen := [] })
      | Except.ok t :: rest => Except.ok (cur, { current := some t, gen := rest })
      | Except.error e :: _ => Except.error e

/-- `TokenStream.skip(kinds, values)`.  Fuel covers the generator. -/
def tsSkip (kinds : List TokKind) (values : List String) :
    Nat → TokenStream → Except PyErr TokenStream
  | 0, ts => Except.ok ts
  | fuel + 1, ts =>
      match ts.current with
      | some cur =>
          if kinds.contains cur.kind || values.contains cur.value then
            match tsNext ts with
            | Except.ok (_, ts) => tsSkip kinds values fuel ts
            | Except.error e => Except.error e
          else Except.ok ts
      | none => Except.ok ts

/-- `TokenStream.skip_until(kinds, values)`. -/
def tsSkipUntil (kinds : List TokKind) (values : List String) :
    Nat → TokenStream → Except PyErr TokenStream
  | 0, ts => Except.ok ts
  | fuel + 1, ts =>
      match ts.current with
      | some cur =>
          if kinds.contains cur.kind || values.contains cur.value then Except.ok ts
          else
            match tsNext ts with
            | Except.ok (_, ts) => tsSkipUntil kinds values fuel ts
            | Except.error e => Except.error e
      | none => Except.ok ts

/-- `TokenStream.consume(kind)`: asserts the current token's kind and
advances. -/
def tsConsume (kind : TokKind) (ts : TokenStream) : Except PyErr TokenStream :=
  match ts.current with
  | some cur =>
      if cur.kind = kind then
        match tsNext ts with
        | Except.ok (_, ts) => Except.ok ts
        | Except.error e => Except.error e
      else Except.error PyErr.assertionError
  | none => Except.ok ts

/-- `ModuleParser._find_docstring(tokens, start)`: skip comments and
newline tokens; a string token's row span (offset to file coordinates,
end exclusive) is the docstring. -/
def findDocstring (ts : TokenStream) (start : Nat) :
    Except PyErr (Option (Nat × Nat)) :=
  match tsSkip [TokKind.commentTok, TokKind.nlTok, TokKind.newlineTok] []
      (ts.gen.length + 1) ts with
  | Except.ok ts =>
      match ts.current with
      | some cur =>
          if cur.kind = TokKind.stringTok then
            Except.ok (some (cur.startRow + start - 1, cur.endRow + start - 1 + 1))
          else Except.ok none
      | none => Except.ok none
  | Except.error e => Except.error e

/-- The header loop of `ModuleParser._parse_definition`: scan to the
header's terminating NEWLINE, then skip comment and blank tokens; a
following INDENT means an indented body whose leading string is the
docstring.  Fuel covers the token stream. -/
def parseDefinitionLoop (start : Nat) :
    Nat → TokenStream → Except PyErr (Option (Nat × Nat))
  | 0, _ => Except.ok none
  | fuel + 1, ts =>
      match ts.current with
      | some cur =>
          if cur.kind = TokKind.newlineTok then
            match tsConsume TokKind.newlineTok ts with
            | Except.ok ts =>
                match tsSkip [TokKind.commentTok, TokKind.nlTok, TokKind.newlineTok]
                    [] (ts.gen.length + 1) ts with
                | Except.ok ts =>
                    match ts.current with
                    | some cur2 =>
                        if cur2.kind = TokKind.indentTok then
                          match tsConsume TokKind.indentTok ts with
                          | Except.ok ts => findDocstring ts start
                          | Except.error e => Except.error e
                        else Except.ok none
                    | none => Except.ok none
                | Except.error e => Except.error e
            | Except.error e => Except.error e
          else
            match tsNext ts with
            | Except.ok (_, ts) => parseDefinitionLoop start fuel ts
            | Except.error e => Except.error e
      | none => Except.ok none

/-- `ModuleParser._parse_definition(start)` run on the token stream of
the definition's line range. -/
def parseDefinition (start : Nat) (items : TokGen) :
    Except PyErr (Option (Nat × Nat)) :=
  match tsMake items with
  | Except.ok ts =>
      match tsSkipUntil [] ["def", "class"] (items.length + 1) ts with
      | Except.ok ts => parseDefinitionLoop start (items.length + 1) ts
      | Except.error e => Except.error e
  | Except.error e => Except.error e

/-! ## Input-style guessing (`parser/__init__.py`, `get_parser`) -/

/-- The possible results of `get_parser`. -/
inductive ParserChoice where
  | base
  | restChoice
  | epytextChoice
  deriving DecidableEq, Repr

/-- The registered guessable grammars `_PARSERS`, in registration
(dictionary insertion) order: reST, then epytext. -/
def registeredMatchers : List (ParserChoice × (String → Bool)) :=
  [(ParserChoice.restChoice, restMatchLine),
   (ParserChoice.epytextChoice, epytextMatchLine)]

/-- The guessing loop of `get_parser` with no explicit input style:
for every line (stripped and lowercased), the first registered grammar
matching the line overwrites `doc_parser`, and the inner `break` only
leaves the per-line loop — the outer loop continues with the remaining
lines, so a later matching line overwrites the choice again. -/
def getParserGuess (lines : List String) : ParserChoice :=
  lines.foldl
    (fun acc line =>
      let line := pyLower (pyStrip line)
      match registeredMatchers.find? (fun p => p.2 line) with
      | some p => p.1
      | none => acc)
    ParserChoice.base

/-! ## Default configuration and writer initialisation
(`configuration.py`, `writer/base.py`) -/

/-- A configuration value. -/
inductive ConfigValue where
  | vBool (b : Bool)
  | vStr (s : String)
  | vInt (n : Int)
  | vBackTick (o : BackTickOpt)
  deriving DecidableEq, Repr

/-- `DEFAULT_CONFIG["output"]`: the exact option names and values of
the default configuration's `output` level in `configuration.py`. -/
def defaultConfigOutputEntries : List (String × ConfigValue) :=
  [("first_line", ConfigValue.vBool true),
   ("replace_quotes", ConfigValue.vStr ""),
   ("standard_indent", ConfigValue.vStr "    "),
   ("tab_length", ConfigValue.vInt 4),
   ("realign", ConfigValue.vBool true),
   ("max_line_length", ConfigValue.vInt 72),
   ("use_optional", ConfigValue.vBool false),
   ("remove_type_back_ticks", ConfigValue.vBackTick BackTickOpt.bTrue),
   ("use_types", ConfigValue.vBool true),
   ("separate_keywords", ConfigValue.vBool false)]

/-- Attribute lookup on the default configuration's `output` level:
`DocconvertConfiguration.update` stores each option with `setattr`, so
reading an option that is not among the stored keys raises
`AttributeError` with the attribute's name. -/
def defaultOutputGetAttr (name : String) : Except PyErr ConfigValue :=
  match defaultConfigOutputEntries.find? (fun p => p.1 = name) with
  | some p => Except.ok p.2
  | none => Except.error (PyErr.attributeError name)

/-- The four registered writers (`writer/__init__.py`, `_WRITERS`). -/
inductive WriterKind where
  | googleW
  | numpyW
  | restW
  | epytextW
  deriving DecidableEq, Repr

/-- `BaseWriter._supports_epytext_convert` is `True` and no writer
subclass overrides it. -/
def writerSupportsEpytextConvert : WriterKind → Bool :=
  fun _ => true

/-- The configuration reads performed by `BaseWriter.__init__` (shared
by all four writers), in source order, against the default
configuration: `standard_indent` (line 64), `max_line_length` (line
67), `remove_type_back_ticks` (line 72), and — because
`_supports_epytext_convert` holds — `convert_epytext_markup` (line 85).
(`tab_length` is only read when the standard indent contains a tab,
which the default `"    "` does not.)  The first failing lookup is the
raised `AttributeError`; on success no output has been produced yet. -/
def baseWriterInitOnDefault (k : WriterKind) : Except PyErr (List ConfigValue) :=
  match defaultOutputGetAttr "standard_indent" with
  | Except.error e => Except.error e
  | Except.ok v1 =>
      match defaultOutputGetAttr "max_line_length" with
      | Except.error e => Except.error e
      | Except.ok v2 =>
          match defaultOutputGetAttr "remove_type_back_ticks" with
          | Except.error e => Except.error e
          | Except.ok v3 =>
              if writerSupportsEpytextConvert k then
                match defaultOutputGetAttr "convert_epytext_markup" with
                | Except.error e => Except.error e
                | Except.ok v4 => Except.ok [v1, v2, v3, v4]
              else Except.ok [v1, v2, v3]

/-! ## Definitions for the remaining claims -/

/-- `Except` success check (peeking "returns without raising"). -/
def exceptIsOk {α : Type} : Except PyErr α → Bool
  | Except.ok _ => true
  | Except.error _ => false

/-- Iterate `LineIter.next(1)` a given number of times, propagating
exhaustion errors. -/
def lineIterNextN : Nat → LineIter → Except PyErr LineIter
  | 0, it => Except.ok it
  | k + 1, it =>
      match it.next 1 with
      | Except.ok (_, it') => lineIterNextN k it'
      | Except.error e => Except.error e

/-- One call of the four field-adding methods of `Docstring`
(claim C7's operation alphabet). -/
inductive DocOp where
  | opArg (arg : String) (kind : Option String) (desc : Option (List String))
      (optional : Bool)
  | opAttribute (var : String) (kind : Option String) (desc : Option (List String))
  | opReturn (kind : Option String) (desc : Option (List String))
  | opRaises (kind : String) (desc : Option (List String))
  deriving DecidableEq, Repr

/-- Apply one call to a docstring. -/
def applyDocOp (d : Docstring) : DocOp → Docstring
  | DocOp.opArg a k ds o => d.addArg a k ds o
  | DocOp.opAttribute v k ds => d.addAttribute v k ds
  | DocOp.opReturn k ds => d.addReturn k ds
  | DocOp.opRaises k ds => d.addRaises k ds

/-- Run a call sequence on a fresh `Docstring()`. -/
def runDocOps (ops : List DocOp) : Docstring :=
  ops.foldl applyDocOp emptyDocstring

/-- The section marker element that a call's table corresponds to. -/
def opMarker : DocOp → Element
  | DocOp.opArg _ _ _ _ => Element.args
  | DocOp.opAttribute _ _ _ => Element.attributes
  | DocOp.opReturn _ _ => Element.returnMarker
  | DocOp.opRaises _ _ => Element.raisesMarker

/-- Whether an element is one of the four section markers. -/
def isMarkerKind : Element → Bool
  | Element.args => true
  | Element.attributes => true
  | Element.raisesMarker => true
  | Element.returnMarker => true
  | _ => false

/-- Whether the table/field corresponding to a marker has been touched. -/
def tableTouched (m : Element) (d : Docstring) : Bool :=
  match m with
  | Element.args => !d.arg_fields.isEmpty
  | Element.attributes => !d.attribute_fields.isEmpty
  | Element.raisesMarker => !d.raise_fields.isEmpty
  | Element.returnMarker => d.return_field.isSome
  | _ => false

/-- Number of occurrences of an element in an element list. -/
def countElem (m : Element) : List Element → Nat
  | [] => 0
  | e :: rest => (if e = m then 1 else 0) + countElem m rest

/-! ## Claim theorems -/

/-- Sanity link between `peekCur` and the faithful `peek`: at guarded
call sites (nonempty lines) the two agree. -/
theorem peekCur_eq_peek (it : LineIter) (h : it.lines ≠ []) :
    it.peek 1 none = Except.ok (LinesResult.one it.peekCur) := by
  have hlen : 0 < it.lines.length := List.length_pos.mpr h
  unfold LineIter.peek LineIter.peekCur pyListGetInt
  have hnonneg : (0 : Int) ≤ min (it.lineNum : Int) ((it.lines.length : Int) - 1) := by
    apply le_min
    · exact Int.ofNat_nonneg _
    · omega
  have hlt : (min (it.lineNum : Int) ((it.lines.length : Int) - 1)).toNat
      = min it.lineNum (it.lines.length - 1) := by
    omega
  simp only [if_pos (by norm_num : (1 : Int) > 0), if_neg (by omega : ¬ (min (it.lineNum : Int) ((it.lines.length : Int) - 1)) < 0), if_pos rfl]
  have hidx : min it.lineNum (it.lines.length - 1) < it.lines.length := by omega
  rw [hlt]
  rw [List.get?_eq_get hidx]
  simp [List.getD, List.getElem?_eq_getElem hidx]


/-- The capture lines of the specification's end-to-end scenario. -/
def c1CaptureLines : List String :=
  ["\"\"\"Desc.", "", ":param arg1: d1", ":rtype: int", "\"\"\""]

/-- C1: parsing the capture lines `"""Desc.` / blank / `:param arg1: d1`
/ `:rtype: int` / `"""` with the reST parser and an empty keyword list
yields exactly one arg field `arg1` with empty type, description
`["d1"]` and optional false; a return field with type `int` and empty
description; and the element list start-quote, raw `Desc.`, raw empty,
args marker, return marker, end-quote, in that order. -/
theorem c1_rest_parse_scenario :
    parseCapture PStyle.rest c1CaptureLines [] = Except.ok
      { elements := [Element.startQuote "\"\"\"", Element.raw "Desc.", Element.raw "",
                     Element.args, Element.returnMarker, Element.endQuote "\"\"\""]
        arg_fields := [("arg1",
          { name := "arg1", kind := "", desc := ["d1"], optional := false })]
        attribute_fields := []
        raise_fields := []
        return_field := some
          { name := "", kind := "int", desc := [], optional := false } } := by
  rfl

/-- The docstring obtained by parsing the scenario capture with the
reST grammar (the input of claims C2 and C3's amended statement). -/
def scenarioDoc : Docstring :=
  ((parseCapture PStyle.rest c1CaptureLines []).toOption).getD emptyDocstring

/-- C2 counterexample: re-rendering the scenario docstring with the
epytext writer does not produce the claimed lines `"""Desc.` / blank /
`@param arg1:` / `@returns:` / `@rtype: int` / `"""` (comparison after
stripping the trailing newline of each emitted line): the argument
description is appended to the `@param` header, and no `@returns:`
line is emitted because the return field's description is empty. -/
theorem c2_epytext_render_counterexample :
    (epytextWrite defaultOutputConfig "" scenarioDoc).map pyRstrip ≠
      ["\"\"\"Desc.", "", "@param arg1:", "@returns:", "@rtype: int", "\"\"\""] := by
  have h : (epytextWrite defaultOutputConfig "" scenarioDoc).map pyRstrip =
      ["\"\"\"Desc.", "", "@param arg1: d1", "@rtype: int", "\"\"\""] := rfl
  rw [h]
  decide

/-- C2 (amended): re-rendering the scenario docstring with the epytext
writer produces exactly the lines `"""Desc.` / blank /
`@param arg1: d1` / `@rtype: int` / `"""` (each with a trailing
newline), with the Args section rendered before the Return section. -/
theorem c2_epytext_render_amended :
    epytextWrite defaultOutputConfig "" scenarioDoc =
      ["\"\"\"Desc.\n", "\n", "@param arg1: d1\n", "@rtype: int\n", "\"\"\"\n"] := by
  rfl

/-- A well-formed docstring on which the reST round trip is not
idempotent: a raises field whose kind is the empty string. -/
def raisesEmptyKindDoc : Docstring :=
  { elements := [Element.startQuote "\"\"\"", Element.raisesMarker,
                 Element.endQuote "\"\"\""]
    arg_fields := []
    attribute_fields := []
    raise_fields := [{ name := "", kind := "", desc := ["d"], optional := false }]
    return_field := none }

/-- C3 counterexample: with realign disabled, writing
`raisesEmptyKindDoc` in the reST style, re-parsing the output with the
reST grammar and writing again is not byte-identical to the first
write: the first write emits `:raises :` with an indented body `d`,
which re-parses as a grouped raises section with kind `d` and empty
description, so the second write emits `:raises d:` instead. -/
theorem c3_roundtrip_counterexample :
    restWrite noRealignConfig ""
        (((parseCapture PStyle.rest
            (restWrite noRealignConfig "" raisesEmptyKindDoc) []).toOption).getD
          emptyDocstring) ≠
      restWrite noRealignConfig "" raisesEmptyKindDoc := by
  have h1 : restWrite noRealignConfig ""
      (((parseCapture PStyle.rest
          (restWrite noRealignConfig "" raisesEmptyKindDoc) []).toOption).getD
        emptyDocstring) =
      ["\"\"\"\n", ":raises d:\n", "\"\"\"\n"] := rfl
  have h2 : restWrite noRealignConfig "" raisesEmptyKindDoc =
      ["\"\"\"\n", ":raises :\n", "    d\n", "\"\"\"\n"] := rfl
  rw [h1, h2]
  decide

set_option maxHeartbeats 2000000 in
/-- C3 (amended): the round trip is not idempotent for every docstring
IR (see the counterexample); it is byte-identical on the
specification's end-to-end scenario docstring in the epytext style
with realign disabled. -/
theorem c3_roundtrip_epytext_scenario :
    epytextWrite noRealignConfig ""
        (((parseCapture PStyle.epytext
            (epytextWrite noRealignConfig "" scenarioDoc) []).toOption).getD
          emptyDocstring) =
      epytextWrite noRealignConfig "" scenarioDoc := by
  have h1 : epytextWrite noRealignConfig "" scenarioDoc =
      ["\"\"\"Desc.\n", "\n", "@param arg1:\n", "    d1\n", "@rtype:\n",
       "    int\n", "\"\"\"\n"] := rfl
  have h2 : ((parseCapture PStyle.epytext
      ["\"\"\"Desc.\n", "\n", "@param arg1:\n", "    d1\n", "@rtype:\n",
       "    int\n", "\"\"\"\n"] []).toOption).getD emptyDocstring =
      scenarioDoc := rfl
  rw [h1, h2, h1]

/-- The statement list of the `func_after_assign.py` fixture: a class
whose body is its docstring, a bare assignment, and a decorated
classmethod with its own docstring. -/
def funcAfterAssignModule : List PyNode :=
  [PyNode.classDef "TestClass"
    [PyNode.exprStr "My test class.",
     PyNode.assign "KEY",
     PyNode.functionDef "test_a"
       [PyNode.exprStr "Class method with docstring.",
        PyNode.other []]]]

/-- C4: on the `func_after_assign` fixture the locator produces only the
class docstring capture.  `_visit_assign` consumes the next sibling
from the shared iterator, so the function definition following the
assignment is never visited and its docstring capture is missing,
contrary to the claim (and to the fixture's stated purpose). -/
theorem c4_assign_consumes_following_def :
    moduleParse 100 funcAfterAssignModule = ["My test class."] ∧
      ¬ ("Class method with docstring." ∈ moduleParse 100 funcAfterAssignModule) := by
  decide

/-- The token stream produced by re-lexing the fixture fragment
starting at the one-line nested definition `def test_y(): ...` of
`indent_error.py` (file line 28, zero-based start 27): an INDENT for
the leading eight spaces, the header tokens, the NEWLINE, and then the
generator raises an IndentationError because the following line
dedents to a column that is not on the fragment's indent stack. -/
def indentErrorFragmentTokens : TokGen :=
  [Except.ok { kind := TokKind.indentTok, value := "        ", startRow := 1, endRow := 1 },
   Except.ok { kind := TokKind.nameTok, value := "def", startRow := 1, endRow := 1 },
   Except.ok { kind := TokKind.nameTok, value := "test_y", startRow := 1, endRow := 1 },
   Except.ok { kind := TokKind.opTok, value := "(", startRow := 1, endRow := 1 },
   Except.ok { kind := TokKind.opTok, value := ")", startRow := 1, endRow := 1 },
   Except.ok { kind := TokKind.opTok, value := ":", startRow := 1, endRow := 1 },
   Except.ok { kind := TokKind.opTok, value := "...", startRow := 1, endRow := 1 },
   Except.ok { kind := TokKind.newlineTok, value := "\n", startRow := 1, endRow := 1 },
   Except.error PyErr.indentationError]

/-- C5: `TokenStream.next` has no handler around its pull from the
generator, so the indentation diagnostic raised while re-lexing the
mid-file fragment propagates out of `_parse_definition` (and hence out
of `ModuleParser.parse`) instead of being treated as the end of the
token stream as the claim requires. -/
theorem c5_indentation_error_propagates :
    parseDefinition 27 indentErrorFragmentTokens =
      Except.error PyErr.indentationError := by
  rfl

/-- A capture whose first line matches the reST grammar and whose last
line matches only the epytext grammar. -/
def c6GuessLines : List String := [":param a: x", "@returns:"]

/-- C6: the first line of `c6GuessLines` is accepted by the reST
grammar (the first registered grammar), yet `get_parser` selects the
epytext parser: the inner `break` leaves only the per-line loop, so the
choice made for an earlier line is overwritten by a later matching
line, contrary to the claim and to the function's own docstring
("return first parser that matches a line"). -/
theorem c6_guess_selection_overwritten_by_later_line :
    restMatchLine ":param a: x" = true ∧
      getParserGuess c6GuessLines = ParserChoice.epytextChoice ∧
      getParserGuess c6GuessLines ≠ ParserChoice.restChoice := by
  decide

/-- C10: constructing any of the four writers with the library's
default configuration raises `AttributeError` before any output line
is produced: `BaseWriter.__init__` unconditionally reads
`config.output.convert_epytext_markup` (every writer supports epytext
conversion), but the default configuration's `output` level defines
only the ten listed options, not `convert_epytext_markup`. -/
theorem c10_writer_init_attribute_error :
    (∀ k : WriterKind,
        baseWriterInitOnDefault k =
          Except.error (PyErr.attributeError "convert_epytext_markup")) ∧
      defaultOutputGetAttr "convert_epytext_markup" =
        Except.error (PyErr.attributeError "convert_epytext_markup") ∧
      defaultConfigOutputEntries.map Prod.fst =
        ["first_line", "replace_quotes", "standard_indent", "tab_length",
         "realign", "max_line_length", "use_optional", "remove_type_back_ticks",
         "use_types", "separate_keywords"] := by
  refine ⟨fun k => ?_, rfl, by decide⟩
  cases k <;> rfl

/-- `countElem` distributes over append. -/
theorem countElem_append (m : Element) (l1 l2 : List Element) :
    countElem m (l1 ++ l2) = countElem m l1 + countElem m l2 := by
  induction l1 with
  | nil => simp [countElem]
  | cons e rest ih => simp [countElem, ih]; omega

/-- `odModify` never changes emptiness. -/
theorem odModify_isEmpty (od : FieldDict) (name : String) (g : DocField → DocField) :
    (odModify od name g).isEmpty = od.isEmpty := by
  cases od <;> rfl

/-- Appending an entry leaves a dictionary nonempty. -/
theorem append_isEmpty_false (od : FieldDict) (e : String × DocField) :
    (od ++ [e]).isEmpty = false := by
  cases od <;> rfl

/-- One call changes the touched state of a marker's table to touched
exactly when the call is of that marker's kind, and appends that
marker exactly when the call is of that kind and the table was
untouched. -/
theorem applyDocOp_marker (m : Element) (hm : isMarkerKind m = true)
    (d : Docstring) (op : DocOp) :
    tableTouched m (applyDocOp d op) =
      (tableTouched m d || (opMarker op = m)) ∧
    countElem m (applyDocOp d op).elements =
      countElem m d.elements +
        (if opMarker op = m ∧ tableTouched m d = false then 1 else 0) := by
  cases op with
  | opArg a k ds o =>
      cases m <;> simp only [isMarkerKind] at hm <;>
        simp only [applyDocOp, Docstring.addArg, Docstring.addElement, opMarker,
          tableTouched] <;>
      by_cases he : d.arg_fields.isEmpty <;>
      by_cases hmem : odMem d.arg_fields (pyLstripStars a) <;>
        simp [he, hmem, countElem_append, countElem, odModify_isEmpty,
          append_isEmpty_false] <;>
      simp_all [odMem, List.isEmpty_iff]
  | opAttribute v k ds =>
      cases m <;> simp only [isMarkerKind] at hm <;>
        simp only [applyDocOp, Docstring.addAttribute, Docstring.addElement, opMarker,
          tableTouched] <;>
      by_cases he : d.attribute_fields.isEmpty <;>
      by_cases hmem : odMem d.attribute_fields v <;>
        simp [he, hmem, countElem_append, countElem, odModify_isEmpty,
          append_isEmpty_false] <;>
      simp_all [odMem, List.isEmpty_iff]
  | opReturn k ds =>
      cases m <;> simp only [isMarkerKind] at hm <;>
        simp only [applyDocOp, Docstring.addReturn, Docstring.addElement, opMarker,
          tableTouched] <;>
      cases hr : d.return_field <;>
        simp [hr, countElem_append, countElem]
  | opRaises k ds =>
      cases m <;> simp only [isMarkerKind] at hm <;>
        simp only [applyDocOp, Docstring.addRaises, Docstring.addElement, opMarker,
          tableTouched] <;>
      by_cases he : d.raise_fields.isEmpty <;>
        simp [he, countElem_append, countElem, append_isEmpty_false]

/-- Invariant transport along a call sequence: starting from a state
where the marker count matches the touched state, the final count is 1
exactly when the table ends up touched, and the final touched state is
the old one or-ed with "some call touches this table". -/
theorem foldDocOps_marker (m : Element) (hm : isMarkerKind m = true) :
    ∀ (ops : List DocOp) (d : Docstring),
      countElem m d.elements = (if tableTouched m d then 1 else 0) →
      countElem m (ops.foldl applyDocOp d).elements =
          (if tableTouched m (ops.foldl applyDocOp d) then 1 else 0) ∧
        tableTouched m (ops.foldl applyDocOp d) =
          (tableTouched m d || ops.any (fun op => opMarker op = m)) := by
  intro ops
  induction ops with
  | nil => intro d h; simpa using h
  | cons op rest ih =>
      intro d h
      have hstep := applyDocOp_marker m hm d op
      have hnext : countElem m (applyDocOp d op).elements =
          (if tableTouched m (applyDocOp d op) then 1 else 0) := by
        rw [hstep.2, hstep.1, h]
        by_cases h1 : opMarker op = m <;> by_cases h2 : tableTouched m d <;>
          simp [h1, h2]
      have hres := ih (applyDocOp d op) hnext
      refine ⟨by simpa using hres.1, ?_⟩
      simp only [List.foldl_cons, List.any_cons]
      rw [hres.2, hstep.1]
      by_cases h1 : opMarker op = m <;> by_cases h2 : tableTouched m d <;>
        simp [h1, h2]

/-- The marker count law for a run from a fresh docstring. -/
theorem runDocOps_markerCount (ops : List DocOp) (m : Element)
    (hm : isMarkerKind m = true) :
    countElem m (runDocOps ops).elements =
      (if ops.any (fun op => opMarker op = m) then 1 else 0) := by
  have hinit : countElem m emptyDocstring.elements =
      (if tableTouched m emptyDocstring then 1 else 0) := by
    cases m <;> simp [countElem, emptyDocstring, tableTouched] <;>
      simp only [isMarkerKind] at hm
  have h := foldDocOps_marker m hm ops emptyDocstring hinit
  have htouch : tableTouched m emptyDocstring = false := by
    cases m <;> simp [emptyDocstring, tableTouched]
  rw [runDocOps, h.1, h.2, htouch]
  simp

/-- C7: for every sequence of `add_arg` / `add_attribute` / `add_raises`
/ `add_return` calls on one fresh docstring, each of the four section
markers occurs in `elements` exactly once if some call touches its
table and zero times otherwise — both for the full sequence and after
every prefix of it, so the marker is appended by the first touching
call and never again. -/
theorem c7_section_marker_singularity (pre post : List DocOp) (m : Element)
    (hm : isMarkerKind m = true) :
    countElem m (runDocOps (pre ++ post)).elements =
      (if (pre ++ post).any (fun op => opMarker op = m) then 1 else 0) ∧
    countElem m (runDocOps pre).elements =
      (if pre.any (fun op => opMarker op = m) then 1 else 0) :=
  ⟨runDocOps_markerCount (pre ++ post) m hm, runDocOps_markerCount pre m hm⟩

/-- Witness for C7 at a concrete call sequence: two `add_arg` calls and
one `add_return` call before / one `add_arg` call after the split. -/
theorem c7_section_marker_singularity_witness :
    countElem Element.args
        (runDocOps ([DocOp.opArg "a" none none false,
          DocOp.opReturn (some "int") none] ++
            [DocOp.opArg "b" none (some ["d"]) true])).elements =
      (if ([DocOp.opArg "a" none none false,
          DocOp.opReturn (some "int") none] ++
            [DocOp.opArg "b" none (some ["d"]) true]).any
          (fun op => opMarker op = Element.args) then 1 else 0) ∧
    countElem Element.args
        (runDocOps [DocOp.opArg "a" none none false,
          DocOp.opReturn (some "int") none]).elements =
      (if ([DocOp.opArg "a" none none false,
          DocOp.opReturn (some "int") none]).any
          (fun op => opMarker op = Element.args) then 1 else 0) :=
  c7_section_marker_singularity
    [DocOp.opArg "a" none none false, DocOp.opReturn (some "int") none]
    [DocOp.opArg "b" none (some ["d"]) true] Element.args (by decide)

/-- `pyLstripStars` is idempotent (dropping a prefix of stars twice is
the same as dropping it once). -/
theorem pyLstripStars_idem (s : String) :
    pyLstripStars (pyLstripStars s) = pyLstripStars s := by
  unfold pyLstripStars
  congr 1
  induction s.data with
  | nil => rfl
  | cons c rest ih =>
      by_cases h : c = '*'
      · simpa [List.dropWhile, h] using ih
      · simp [List.dropWhile, h]

/-- C8: on a fresh docstring, adding an argument's description and
optional flag and then its type yields the same `arg_fields` (same
single entry: name, kind, desc, optional) as adding the type first and
the description after. -/
theorem c8_add_arg_type_commutes (name k : String) (d : List String) (o : Bool) :
    ((emptyDocstring.addArg name none (some d) o).addArgType name k).arg_fields =
      ((emptyDocstring.addArgType name k).addArg name none (some d) o).arg_fields := by
  simp only [Docstring.addArg, Docstring.addArgType, Docstring.addElement,
    emptyDocstring, odMem, odModify, mkField, fieldUpdate, pyLstripStars_idem]
  simp [odMem, List.any]

/-- A single default `next()` call at an in-range position returns that
line and advances by one. -/
theorem lineIter_next_step (lines : List String) (p : Nat) (h : p < lines.length) :
    ({ lines := lines, lineNum := p } : LineIter).next 1 =
      Except.ok (LinesResult.one (lines.get ⟨p, h⟩),
        { lines := lines, lineNum := p + 1 }) := by
  have hmin : min (p + 1) lines.length = p + 1 := Nat.min_eq_left (by omega)
  have hnn : ¬ ((Int.ofNat p) < 0) := Int.not_lt.mpr (Int.ofNat_nonneg p)
  have hc : ¬ ((p : Int) < 0) := by omega
  simp only [LineIter.next, LineIter.hasNext, pyListGetInt]
  simp [h, hnn, hmin, List.get?_eq_get h, hc, List.getElem?_eq_getElem h]

/-- Indexing with a nonnegative in-range index succeeds. -/
theorem pyListGetInt_nonneg (l : List String) (i : Int) (h0 : 0 ≤ i)
    (h1 : i.toNat < l.length) :
    pyListGetInt l i = Except.ok (l.get ⟨i.toNat, h1⟩) := by
  unfold pyListGetInt
  have hneg : ¬ (i < 0) := by omega
  simp [hneg, List.getElem?_eq_getElem h1]

/-- Calling `next()` `k` times from position `p` advances to `p + k` as
long as that stays within the line count. -/
theorem lineIterNextN_ok (lines : List String) :
    ∀ (k p : Nat), p + k ≤ lines.length →
      lineIterNextN k { lines := lines, lineNum := p } =
        Except.ok { lines := lines, lineNum := p + k } := by
  intro k
  induction k with
  | zero => intro p _; simp [lineIterNextN]
  | succ k ih =>
      intro p hp
      have hlt : p < lines.length := by omega
      unfold lineIterNextN
      rw [lineIter_next_step lines p hlt]
      show lineIterNextN k { lines := lines, lineNum := p + 1 } = _
      have harith : p + 1 + k = p + (k + 1) := by omega
      rw [ih (p + 1) (by omega), harith]

/-- C9: for a `LineIter` over a nonempty line list and any `n >= 1`,
`peek(n)` from any position succeeds (never raises, clamping to the
end); at an exhausted position `peek(1)` returns the last line; and
after `next()` has been called exactly `len(lines)` times from the
start the iterator sits at the end, and one further `next()` raises
the exhaustion error. -/
theorem c9_lineiter_peek_next_contract (lines : List String) (h : lines ≠ [])
    (n : Int) (hn : 1 ≤ n) (p : Nat) :
    exceptIsOk (({ lines := lines, lineNum := p } : LineIter).peek n none) = true ∧
    ({ lines := lines, lineNum := lines.length } : LineIter).peek 1 none =
      Except.ok (LinesResult.one (lines.getLast h)) ∧
    lineIterNextN lines.length { lines := lines, lineNum := 0 } =
      Except.ok { lines := lines, lineNum := lines.length } ∧
    ({ lines := lines, lineNum := lines.length } : LineIter).next 1 =
      Except.error PyErr.stopIteration := by
  have hlen : 0 < lines.length := List.length_pos.mpr h
  refine ⟨?_, ?_, ?_, ?_⟩
  · by_cases h1 : n = 1
    · have h0 : (0 : Int) ≤ min ((p : Int)) ((lines.length : Int) - 1) := by omega
      have h2 : (min ((p : Int)) ((lines.length : Int) - 1)).toNat < lines.length := by
        omega
      have hget := pyListGetInt_nonneg lines
        (min ((p : Int)) ((lines.length : Int) - 1)) h0 h2
      simp [LineIter.peek, (by omega : n > 0), h1, hget, exceptIsOk]
    · simp [LineIter.peek, (by omega : n > 0), h1, exceptIsOk]
  · have hmin : min (((lines.length : Nat) : Int)) ((lines.length : Int) - 1) =
        (lines.length : Int) - 1 := by omega
    have h0 : (0 : Int) ≤ (lines.length : Int) - 1 := by omega
    have h2 : ((lines.length : Int) - 1).toNat < lines.length := by omega
    have hget := pyListGetInt_nonneg lines ((lines.length : Int) - 1) h0 h2
    simp [LineIter.peek, hmin, hget]
    exact (List.getLast_eq_getElem lines h).symm
  · simpa using lineIterNextN_ok lines lines.length 0 (by omega)
  · simp [LineIter.next, LineIter.hasNext]

/-- Witness for C9 at a concrete iterator: two lines, peek width 3,
starting position past the end. -/
theorem c9_lineiter_peek_next_contract_witness :
    exceptIsOk (({ lines := ["a", "b"], lineNum := 5 } : LineIter).peek 3 none) =
        true ∧
    ({ lines := ["a", "b"], lineNum := 2 } : LineIter).peek 1 none =
      Except.ok (LinesResult.one (["a", "b"].getLast (by decide))) ∧
    lineIterNextN 2 { lines := ["a", "b"], lineNum := 0 } =
      Except.ok { lines := ["a", "b"], lineNum := 2 } ∧
    ({ lines := ["a", "b"], lineNum := 2 } : LineIter).next 1 =
      Except.error PyErr.stopIteration :=
  c9_lineiter_peek_next_contract ["a", "b"] (by decide) 3 (by decide) 5
